import Mathlib

/-!
Verification development for the FarmTech irrigation monitoring repository.

The repository implements an irrigation decision engine (duplicated across
several modules with small differences), a z-score anomaly detector, thin
wrappers around ML model training (risk classifier, ARIMA forecaster), and a
CRUD service layer over one relational table of sensor readings.

We embed the relevant Python functions shallowly:
* Python floats become rationals (`ℚ`).  Every threshold and every concrete
  test value used below (15.0, 20.0, 60.0, 4.5, 5.5, 6.5, 7.5, 1.0, 3.0, …)
  is exactly representable as an IEEE double, and the code only compares
  such values with `<`, `≤`, `>`, so the rational embedding is faithful.
* Format strings that interpolate numeric values are modelled by inductive
  message tags, one constructor per template string of the source; string
  constants without interpolation are kept as string literals.
* Calls into external ML libraries (scikit-learn, statsmodels) are modelled
  as abstract success records carrying their inputs: the claims under study
  only concern the guard logic that runs before those calls.
* Python exceptions become `Except`.
-/

/-- The `logica_esp32` threshold configuration section
(`config_manager` / the hardcoded defaults repeated in every module). -/
structure IrrigCfg where
  UMIDADE_CRITICA_BAIXA : ℚ
  UMIDADE_MINIMA_PARA_IRRIGAR : ℚ
  UMIDADE_ALTA_PARAR_IRRIGACAO : ℚ
  PH_IDEAL_MINIMO : ℚ
  PH_IDEAL_MAXIMO : ℚ
  PH_CRITICO_MINIMO : ℚ
  PH_CRITICO_MAXIMO : ℚ
  deriving DecidableEq, Repr

/-- The default thresholds (identical in `app.py`, `wokwi_listener.py`,
`config_manager.py`): 15.0 / 20.0 / 60.0 / 5.5 / 6.5 / 4.5 / 7.5. -/
def defaultCfg : IrrigCfg :=
  { UMIDADE_CRITICA_BAIXA := 15
    UMIDADE_MINIMA_PARA_IRRIGAR := 20
    UMIDADE_ALTA_PARAR_IRRIGACAO := 60
    PH_IDEAL_MINIMO := 5.5
    PH_IDEAL_MAXIMO := 6.5
    PH_CRITICO_MINIMO := 4.5
    PH_CRITICO_MAXIMO := 7.5 }

/-! ## `backend/data_analysis.py`: `simular_logica_irrigacao` -/

/-- Message templates of the `justificativa` f-strings in
`data_analysis.simular_logica_irrigacao` (the source interpolates the
numeric readings into these templates). -/
inductive JustifDA where
  /-- "Condições normais." -/
  | condicoesNormais
  /-- "EMERGÊNCIA: Umidade (…) abaixo do crítico." -/
  | emergenciaUmidadeAbaixoCritico
  /-- "EMERGÊNCIA: pH (…) fora da faixa crítica." -/
  | emergenciaPhForaFaixaCritica
  /-- "Umidade baixa (…), mas pH (…) fora do ideal." -/
  | umidadeBaixaPhForaIdeal
  /-- "Umidade (…) ideal para irrigar." -/
  | umidadeIdealParaIrrigar
  /-- "Umidade (…) acima do necessário." -/
  | umidadeAcimaNecessario
  deriving DecidableEq, Repr

/-- Result dict of `data_analysis.simular_logica_irrigacao`:
keys `decisao`, `justificativa`, `emergencia`. -/
structure SimResultDA where
  decisao : String
  justificativa : JustifDA
  emergencia : Bool
  deriving DecidableEq, Repr

/-- Shallow embedding of `data_analysis.simular_logica_irrigacao`
(`backend/data_analysis.py`, lines 35-53), with `cfg_logica` explicit.
Note the first guard: `umidade < UMIDADE_CRITICA_BAIXA or not
(PH_CRITICO_MINIMO < ph < PH_CRITICO_MAXIMO)` — a strict chained
comparison, and the branch always sets `decisao` to
"Ligar bomba (EMERGÊNCIA)". -/
def simular_logica_irrigacao (umidade ph : ℚ) (cfg : IrrigCfg) : SimResultDA :=
  if umidade < cfg.UMIDADE_CRITICA_BAIXA ∨
      ¬ (cfg.PH_CRITICO_MINIMO < ph ∧ ph < cfg.PH_CRITICO_MAXIMO) then
    { decisao := "Ligar bomba (EMERGÊNCIA)"
      justificativa :=
        if umidade < cfg.UMIDADE_CRITICA_BAIXA then
          JustifDA.emergenciaUmidadeAbaixoCritico
        else
          JustifDA.emergenciaPhForaFaixaCritica
      emergencia := true }
  else if umidade < cfg.UMIDADE_MINIMA_PARA_IRRIGAR then
    if ¬ (cfg.PH_IDEAL_MINIMO < ph ∧ ph < cfg.PH_IDEAL_MAXIMO) then
      { decisao := "Manter bomba desligada"
        justificativa := JustifDA.umidadeBaixaPhForaIdeal
        emergencia := false }
    else
      { decisao := "Ligar bomba"
        justificativa := JustifDA.umidadeIdealParaIrrigar
        emergencia := false }
  else if umidade > cfg.UMIDADE_ALTA_PARAR_IRRIGACAO then
    { decisao := "Manter bomba desligada"
      justificativa := JustifDA.umidadeAcimaNecessario
      emergencia := false }
  else
    { decisao := "Manter bomba desligada"
      justificativa := JustifDA.condicoesNormais
      emergencia := false }

/-- The pump command carried by the `decisao` string of
`simular_logica_irrigacao`: the pump is commanded on exactly by the two
"Ligar bomba" decisions. -/
def decisaoLigaBomba (r : SimResultDA) : Bool :=
  r.decisao == "Ligar bomba" || r.decisao == "Ligar bomba (EMERGÊNCIA)"

/-! ## `backend/wokwi_listener.py`: `WokwiListener._simulate_irrigation_logic`
and the `emergencia` field of `simulate_wokwi_data` -/

/-- Message templates of `_simulate_irrigation_logic`
(`backend/wokwi_listener.py`, lines 123-157), one per return site. -/
inductive MotivoWokwi where
  /-- "EMERGÊNCIA: Umidade crítica (…)" -/
  | emergenciaUmidadeCritica
  /-- "pH crítico (…) - Irrigação bloqueada" -/
  | phCriticoIrrigacaoBloqueada
  /-- "Umidade baixa (…), pH ideal, nutrientes OK" -/
  | umidadeBaixaPhIdealNutrientesOk
  /-- "Umidade baixa (…), pH ideal, nutrientes parciais" -/
  | umidadeBaixaPhIdealNutrientesParciais
  /-- "Umidade baixa (…), pH ideal, sem nutrientes" -/
  | umidadeBaixaPhIdealSemNutrientes
  /-- "Umidade baixa (…), mas pH não ideal (…)" -/
  | umidadeBaixaPhNaoIdeal
  /-- "Umidade alta (…) - Irrigação desnecessária" -/
  | umidadeAltaIrrigacaoDesnecessaria
  /-- "Condições normais - Bomba desligada (…)" -/
  | condicoesNormaisBombaDesligada
  deriving DecidableEq, Repr

/-- Shallow embedding of `WokwiListener._simulate_irrigation_logic`
(`backend/wokwi_listener.py`, lines 123-157); returns
`(deve_ligar_bomba, motivo)`.  The `temperature` parameter of the source is
unused by the source body and therefore omitted here. -/
def simulate_irrigation_logic (humidity ph : ℚ) (phosphorus potassium : Bool)
    (params : IrrigCfg) : Bool × MotivoWokwi :=
  if humidity < params.UMIDADE_CRITICA_BAIXA then
    (true, MotivoWokwi.emergenciaUmidadeCritica)
  else if ph < params.PH_CRITICO_MINIMO ∨ ph > params.PH_CRITICO_MAXIMO then
    (false, MotivoWokwi.phCriticoIrrigacaoBloqueada)
  else if humidity < params.UMIDADE_MINIMA_PARA_IRRIGAR then
    if params.PH_IDEAL_MINIMO ≤ ph ∧ ph ≤ params.PH_IDEAL_MAXIMO then
      if phosphorus && potassium then
        (true, MotivoWokwi.umidadeBaixaPhIdealNutrientesOk)
      else if phosphorus || potassium then
        (true, MotivoWokwi.umidadeBaixaPhIdealNutrientesParciais)
      else
        (true, MotivoWokwi.umidadeBaixaPhIdealSemNutrientes)
    else
      (false, MotivoWokwi.umidadeBaixaPhNaoIdeal)
  else if humidity > params.UMIDADE_ALTA_PARAR_IRRIGACAO then
    (false, MotivoWokwi.umidadeAltaIrrigacaoDesnecessaria)
  else
    (false, MotivoWokwi.condicoesNormaisBombaDesligada)

/-- The `emergency` field computed by `WokwiListener.simulate_wokwi_data`
(`backend/wokwi_listener.py`, lines 105-109). -/
def wokwi_emergencia (humidity ph : ℚ) (params : IrrigCfg) : Bool :=
  decide (humidity < params.UMIDADE_CRITICA_BAIXA) ||
  decide (ph < params.PH_CRITICO_MINIMO) ||
  decide (ph > params.PH_CRITICO_MAXIMO)

/-! ## `legacy/dashboard/dashboard.py`: `simular_logica_irrigacao_app`
(the rainfall-extended variant) -/

/-- Base-decision message templates of `simular_logica_irrigacao_app`
(`legacy/dashboard/dashboard.py`, lines 636-651). -/
inductive MotivoApp where
  /-- "Condições padrão, bomba desligada." -/
  | condicoesPadrao
  /-- "EMERGÊNCIA: Umidade crítica (…)" -/
  | emergenciaUmidadeCritica
  /-- "pH crítico (…)" -/
  | phCritico
  /-- "Umid. baixa (…), pH ideal (…), P&K OK" -/
  | umidBaixaPhIdealPKOk
  /-- "Umid. baixa (…), pH ideal (…), P ou K OK" -/
  | umidBaixaPhIdealPOuKOk
  /-- "Umid. baixa (…), pH ideal (…), Nutrientes Ausentes" -/
  | umidBaixaPhIdealNutrientesAusentes
  /-- "Umid. baixa (…), mas pH (…) não ideal" -/
  | umidBaixaPhNaoIdeal
  /-- "Umidade alta (…)" -/
  | umidadeAlta
  deriving DecidableEq, Repr

/-- Final message of `simular_logica_irrigacao_app`: either the rain
override message ("DECISÃO BASE: Ligar (…). AJUSTE CLIMA: DESLIGAR (…)"),
or the base message suffixed with "(Chuva: …mm)" resp.
"(Sem chuva prevista)". -/
inductive MotivoAppFinal where
  | ajusteClimaDesligar (base : MotivoApp) (chuva : ℚ)
  | comChuva (base : MotivoApp) (chuva : ℚ)
  | semChuva (base : MotivoApp)
  deriving DecidableEq, Repr

/-- Shallow embedding of `simular_logica_irrigacao_app`
(`legacy/dashboard/dashboard.py`, lines 636-659); returns
`(ligar_bomba, motivo)`.  The rain override at the end fires whenever the
base decision is to irrigate and `chuva_mm > 1.0`. -/
def simular_logica_irrigacao_app (umidade ph : ℚ) (p k : Bool)
    (cfg : IrrigCfg) (chuva_mm : ℚ) : Bool × MotivoAppFinal :=
  let base : Bool × MotivoApp :=
    if umidade < cfg.UMIDADE_CRITICA_BAIXA then
      (true, MotivoApp.emergenciaUmidadeCritica)
    else if ph < cfg.PH_CRITICO_MINIMO ∨ ph > cfg.PH_CRITICO_MAXIMO then
      (false, MotivoApp.phCritico)
    else if umidade < cfg.UMIDADE_MINIMA_PARA_IRRIGAR then
      if cfg.PH_IDEAL_MINIMO ≤ ph ∧ ph ≤ cfg.PH_IDEAL_MAXIMO then
        (true,
          if p && k then MotivoApp.umidBaixaPhIdealPKOk
          else if p || k then MotivoApp.umidBaixaPhIdealPOuKOk
          else MotivoApp.umidBaixaPhIdealNutrientesAusentes)
      else
        (false, MotivoApp.umidBaixaPhNaoIdeal)
    else if umidade > cfg.UMIDADE_ALTA_PARAR_IRRIGACAO then
      (false, MotivoApp.umidadeAlta)
    else
      (false, MotivoApp.condicoesPadrao)
  if base.1 && decide (chuva_mm > 1) then
    (false, MotivoAppFinal.ajusteClimaDesligar base.2 chuva_mm)
  else if chuva_mm > 0 then
    (base.1, MotivoAppFinal.comChuva base.2 chuva_mm)
  else
    (base.1, MotivoAppFinal.semChuva base.2)

/-! ## `backend/services.py`: `run_what_if_simulation` -/

/-- Message templates of `services.run_what_if_simulation`
(`backend/services.py`, lines 59-70), one per return site. -/
inductive MotivoWhatIf where
  /-- "Ligar: Umidade (…) abaixo do mínimo (…)" -/
  | ligarAbaixoDoMinimo
  /-- "Desligar: Umidade (…) acima do ideal (…)" -/
  | desligarAcimaDoIdeal
  /-- "Manter desligada: Umidade (…) está dentro da faixa ideal." -/
  | manterDentroDaFaixa
  deriving DecidableEq, Repr

/-- Shallow embedding of `services.run_what_if_simulation`
(`backend/services.py`, lines 59-70).  The source takes `ph`,
`temperatura`, `fosforo`, `potassio` as parameters but its body reads none
of them; they are kept here to state insensitivity results. -/
def run_what_if_simulation (umidade ph temperatura : ℚ)
    (fosforo potassio : Bool) (cfg : IrrigCfg) : Bool × MotivoWhatIf :=
  if umidade < cfg.UMIDADE_MINIMA_PARA_IRRIGAR then
    (true, MotivoWhatIf.ligarAbaixoDoMinimo)
  else if umidade > cfg.UMIDADE_ALTA_PARAR_IRRIGACAO then
    (false, MotivoWhatIf.desligarAcimaDoIdeal)
  else
    (false, MotivoWhatIf.manterDentroDaFaixa)

/-! ## `backend/data_analysis.py`: `detect_anomalies`

The source computes, for a numeric column `xs`, the population z-score
`z = (x - mean) / std` with `std = sqrt(popVar)` (pandas `std(ddof=0)`) and
flags `|z| > z_thresh`.  A square root is not computable over `ℚ`, so the
flag is embedded in the equivalent squared form
`(x - mean)² > z_thresh² · popVar` (equivalent whenever `popVar > 0` and
`z_thresh ≥ 0`; `zscore_flag_iff_sq` below proves the equivalence over
`ℝ`).  All values of the scenario under study make both forms exact. -/

/-- Arithmetic mean of a column (pandas `.mean()`). -/
def popMean (xs : List ℚ) : ℚ := xs.sum / (xs.length : ℚ)

/-- Population variance of a column (the square of pandas `.std(ddof=0)`). -/
def popVar (xs : List ℚ) : ℚ :=
  (xs.map (fun x => (x - popMean xs) ^ 2)).sum / (xs.length : ℚ)

/-- Shallow embedding of `data_analysis.detect_anomalies`
(`backend/data_analysis.py`, lines 17-20): the `anomalia` column, one
boolean per row, via the squared form of `|z| > z_thresh`.  An empty
input yields the empty column (the source returns the empty frame with an
all-false `anomalia` column). -/
def detect_anomalies (xs : List ℚ) (z_thresh : ℚ) : List Bool :=
  xs.map (fun x => decide ((x - popMean xs) ^ 2 > z_thresh ^ 2 * popVar xs))

/-- The squared form used in `detect_anomalies` is exactly the source's
`|x - mean| / std > t` whenever the variance is positive and the threshold
nonnegative. -/
theorem zscore_flag_iff_sq (x mean v t : ℝ) (hv : 0 < v) (ht : 0 ≤ t) :
    |x - mean| / Real.sqrt v > t ↔ (x - mean) ^ 2 > t ^ 2 * v := by
  have hs : 0 < Real.sqrt v := Real.sqrt_pos.mpr hv
  rw [gt_iff_lt, lt_div_iff₀ hs]
  have hsq : Real.sqrt v ^ 2 = v := Real.sq_sqrt hv.le
  have hsa : |x - mean| ^ 2 = (x - mean) ^ 2 := sq_abs _
  have hnn : 0 ≤ t * Real.sqrt v := mul_nonneg ht hs.le
  have habs : 0 ≤ |x - mean| := abs_nonneg _
  constructor
  · intro h
    nlinarith [h, hnn, hsq, hsa, habs]
  · intro h
    nlinarith [h, hnn, hsq, hsa, habs]

/-! ## `backend/ml_predictor.py`: `train_arima_model` -/

/-- The distinct `ValueError` / `RuntimeError` raise sites of
`train_arima_model` (`backend/ml_predictor.py`, lines 125-142), one
constructor per message template:
* `entradaVazia`: "A entrada deve ser uma pandas Series não vazia."
  (names no length);
* `serieMuitoCurta n`: "Série temporal muito curta (n pontos). São
  necessários pelo menos 20 pontos para o forecast." (interpolates the
  actual history length `n`);
* `falhaTreino`: "Falha ao treinar modelo ARIMA: …" (wraps a library
  exception). -/
inductive ArimaError where
  | entradaVazia
  | serieMuitoCurta (n : ℕ)
  | falhaTreino
  deriving DecidableEq, Repr

/-- A fitted ARIMA model.  The statsmodels fit itself is an external
library call; the embedding records the inputs the source hands to it and
treats the fit as succeeding (the claims under study only concern the
guards that run before the fit). -/
structure ArimaFit where
  series : List ℚ
  order : ℕ × ℕ × ℕ
  deriving DecidableEq, Repr

/-- Shallow embedding of `ml_predictor.train_arima_model`
(`backend/ml_predictor.py`, lines 125-142).  Guard order as in the source:
empty input first, then the minimum-history check `len(series) < 20`,
then the (modelled) fit. -/
def train_arima_model (series : List ℚ) (order : ℕ × ℕ × ℕ) :
    Except ArimaError ArimaFit :=
  if series.isEmpty then
    Except.error ArimaError.entradaVazia
  else if series.length < 20 then
    Except.error (ArimaError.serieMuitoCurta series.length)
  else
    Except.ok { series := series, order := order }

/-! ## `backend/ml_predictor.py`: `train_risk_model` -/

/-- One row of the risk-training frame: the columns `build_feature_matrix`
reads.  The source additionally engineers hour-of-day, day-of-week and
3-sample moving-average features from these columns; that derivation is
total for well-formed rows and does not influence the class-count guard
under study. -/
structure RiskRow where
  timestamp : ℕ
  umidade : ℚ
  ph_estimado : ℚ
  fosforo_presente : Bool
  potassio_presente : Bool
  temperatura : ℚ
  emergencia : Bool
  deriving DecidableEq, Repr

/-- A trained risk classifier.  Grid search, stratified split and accuracy
scoring are external scikit-learn calls; the embedding records the rows
handed to them. -/
structure RiskFit where
  rows : List RiskRow
  deriving DecidableEq, Repr

/-- Result dict of `train_risk_model`: either the typed "not enough data"
dict `{"modelo": None, "acuracia": 0, "mensagem": …}` or a trained model
(whose accuracy/confusion-matrix entries come from the external library
and are not modelled). -/
inductive RiskResult where
  | semDadosSuficientes (modelo : Option RiskFit) (acuracia : ℚ) (mensagem : String)
  | treinado (fit : RiskFit)
  deriving DecidableEq, Repr

/-- The `mensagem` of the "not enough data" dict
(`backend/ml_predictor.py`, line 98). -/
def msgSemDados : String :=
  "Não há dados suficientes de ambas as classes (emergência e não emergência) para treinar o modelo."

/-- Shallow embedding of `ml_predictor.train_risk_model`
(`backend/ml_predictor.py`, lines 78-118).  The source raises `ValueError`
when the frame is empty or lacks the `emergencia` column (the rows of the
embedding always carry that column); with `y = df[emergencia]`, the guard
`len(y.unique()) < 2` returns the typed "not enough data" dict; otherwise
the grid search runs (modelled as a `treinado` result). -/
def train_risk_model (rows : List RiskRow) : Except String RiskResult :=
  if rows.isEmpty then
    Except.error "DataFrame para treino de risco deve ser válido e conter a coluna emergencia."
  else if ((rows.map (fun r => r.emergencia)).dedup).length < 2 then
    Except.ok (RiskResult.semDadosSuficientes none 0 msgSemDados)
  else
    Except.ok (RiskResult.treinado { rows := rows })

/-! ## `backend/db_manager.py` + `backend/services.py`: the reading store

The table `leituras_sensores_phd_v2` (`db_manager.LeituraSensor`):
integer primary key `id`, a `timestamp` column with a UNIQUE constraint
and default `datetime.utcnow`, and the sensor/decision columns.
`datetime` values are modelled as abstract instants (`ℕ`); SQLite is
modelled as a list of rows plus the autoincrement counter, and a UNIQUE
violation on commit (SQLAlchemy `IntegrityError`, re-raised by
`session_scope` after rollback) becomes `Except.error`. -/

/-- One row of `leituras_sensores_phd_v2` (`backend/db_manager.py`,
lines 52-68). -/
structure Leitura where
  id : ℕ
  timestamp : ℕ
  umidade : ℚ
  ph_estimado : ℚ
  fosforo_presente : Bool
  potassio_presente : Bool
  temperatura : Option ℚ
  bomba_ligada : Bool
  decisao_logica_esp32 : Option String
  emergencia : Bool
  deriving DecidableEq, Repr

/-- The keyword arguments accepted by `services.add_leitura`: every
non-nullable column except the store-assigned `id`; `timestamp` is
optional and defaults to the current instant (the column default
`datetime.utcnow`). -/
structure LeituraInput where
  timestamp : Option ℕ
  umidade : ℚ
  ph_estimado : ℚ
  fosforo_presente : Bool
  potassio_presente : Bool
  temperatura : Option ℚ
  bomba_ligada : Bool
  decisao_logica_esp32 : Option String
  emergencia : Bool
  deriving DecidableEq, Repr

/-- The SQLite table: rows plus the next autoincrement id. -/
structure Store where
  rows : List Leitura
  nextId : ℕ
  deriving DecidableEq, Repr

/-- Store well-formedness: every present id is below the autoincrement
counter (hence fresh ids never collide and ids are unique per row). -/
def Store.wf (s : Store) : Prop :=
  ∀ r ∈ s.rows, r.id < s.nextId

/-- Primary-key lookup (`sess.get(LeituraSensor, leitura_id)`). -/
def get_leitura (s : Store) (leitura_id : ℕ) : Option Leitura :=
  s.rows.find? (fun r => r.id == leitura_id)

/-- Shallow embedding of `services.add_leitura`
(`backend/services.py`, lines 18-25): construct `LeituraSensor(**kwargs)`,
`add`, `commit` (UNIQUE timestamp enforced here), `refresh`, return the
generated id.  `now` models `datetime.utcnow()` at commit time. -/
def add_leitura (s : Store) (now : ℕ) (inp : LeituraInput) :
    Except String (Store × ℕ) :=
  let ts := inp.timestamp.getD now
  let r : Leitura :=
    { id := s.nextId
      timestamp := ts
      umidade := inp.umidade
      ph_estimado := inp.ph_estimado
      fosforo_presente := inp.fosforo_presente
      potassio_presente := inp.potassio_presente
      temperatura := inp.temperatura
      bomba_ligada := inp.bomba_ligada
      decisao_logica_esp32 := inp.decisao_logica_esp32
      emergencia := inp.emergencia }
  if s.rows.any (fun q => q.timestamp == ts) then
    Except.error "IntegrityError: UNIQUE constraint failed: leituras_sensores_phd_v2.timestamp"
  else
    Except.ok ({ rows := s.rows ++ [r], nextId := s.nextId + 1 }, s.nextId)

/-- One entry of the `campos` dict passed to `services.update_leitura`:
a key (column name) with its new value.  `hasattr(leitura, k)` holds for
exactly the mapped columns (keys of other Python attributes do not reach
the stored row — setting them mutates only the transient Python object);
`desconhecido` stands for any key that is not an attribute. -/
inductive Campo where
  | id (v : ℕ)
  | timestamp (v : ℕ)
  | umidade (v : ℚ)
  | ph_estimado (v : ℚ)
  | fosforo_presente (v : Bool)
  | potassio_presente (v : Bool)
  | temperatura (v : Option ℚ)
  | bomba_ligada (v : Bool)
  | decisao_logica_esp32 (v : Option String)
  | emergencia (v : Bool)
  | desconhecido (nome : String)
  deriving DecidableEq, Repr

/-- `setattr(leitura, k, v) if hasattr(leitura, k)`: known columns are
assigned, unknown keys are silently skipped. -/
def applyCampo (r : Leitura) : Campo → Leitura
  | Campo.id v => { r with id := v }
  | Campo.timestamp v => { r with timestamp := v }
  | Campo.umidade v => { r with umidade := v }
  | Campo.ph_estimado v => { r with ph_estimado := v }
  | Campo.fosforo_presente v => { r with fosforo_presente := v }
  | Campo.potassio_presente v => { r with potassio_presente := v }
  | Campo.temperatura v => { r with temperatura := v }
  | Campo.bomba_ligada v => { r with bomba_ligada := v }
  | Campo.decisao_logica_esp32 v => { r with decisao_logica_esp32 := v }
  | Campo.emergencia v => { r with emergencia := v }
  | Campo.desconhecido _ => r

/-- Shallow embedding of `services.update_leitura`
(`backend/services.py`, lines 27-36): primary-key lookup; `False` when the
id is absent; otherwise the `campos` loop applies the known keys in order
and `commit` persists the updated row — unless the new `timestamp` (or a
new `id`) collides with another row, in which case the UNIQUE / primary
key constraint aborts the commit (`IntegrityError`, store rolled back). -/
def update_leitura (s : Store) (leitura_id : ℕ) (campos : List Campo) :
    Except String (Store × Bool) :=
  match get_leitura s leitura_id with
  | none => Except.ok (s, false)
  | some r =>
    let r2 := campos.foldl applyCampo r
    if s.rows.any (fun q => q.id != leitura_id &&
        (q.timestamp == r2.timestamp || q.id == r2.id)) then
      Except.error "IntegrityError: UNIQUE constraint failed: leituras_sensores_phd_v2"
    else
      Except.ok
        ({ s with rows := s.rows.map (fun q => if q.id == leitura_id then r2 else q) },
          true)

/-- Fixture row for the store claims. -/
def rowA : Leitura :=
  { id := 1
    timestamp := 100
    umidade := 30
    ph_estimado := 6
    fosforo_presente := true
    potassio_presente := true
    temperatura := none
    bomba_ligada := false
    decisao_logica_esp32 := none
    emergencia := false }

/-- Second fixture row: a different id and a different timestamp. -/
def rowB : Leitura :=
  { rowA with id := 2, timestamp := 200 }

/-!
# Theorems
-/

/-! ## Claims about the decision engines -/

/-- Claim C1 (code-bug evidence).  At humidity 40 (≥ HUMIDITY_CRITICAL_LOW)
and pH 8.0 (above PH_CRITICAL_MAX), `data_analysis.simular_logica_irrigacao`
returns the decision "Ligar bomba (EMERGÊNCIA)" — the pump is commanded ON
and the emergency flag set — whereas the claim (and the repository's own
test `test_ph_critico`, the wokwi listener variant, and the legacy
dashboard variant, all shown blocking) requires `pump_on = false` under
unsafe pH.  The third conjunct shows the wokwi listener variant blocking at
the same input. -/
theorem claim_C1_data_analysis_forces_pump_on_critical_ph :
    simular_logica_irrigacao 40 8 defaultCfg =
      { decisao := "Ligar bomba (EMERGÊNCIA)"
        justificativa := JustifDA.emergenciaPhForaFaixaCritica
        emergencia := true } ∧
    decisaoLigaBomba (simular_logica_irrigacao 40 8 defaultCfg) = true ∧
    simulate_irrigation_logic 40 8 true true defaultCfg =
      (false, MotivoWokwi.phCriticoIrrigacaoBloqueada) := by
  refine ⟨?_, ?_, ?_⟩ <;>
    norm_num [simular_logica_irrigacao, simulate_irrigation_logic,
      decisaoLigaBomba, defaultCfg]

/-- Claim C2: for every input with humidity below HUMIDITY_CRITICAL_LOW
(15.0), both decision-engine variants command the pump ON and flag an
emergency, for every pH and every nutrient flag. -/
theorem claim_C2_critical_humidity_forces_emergency_irrigation
    (umidade ph : ℚ) (p k : Bool) (h : umidade < 15) :
    decisaoLigaBomba (simular_logica_irrigacao umidade ph defaultCfg) = true ∧
    (simular_logica_irrigacao umidade ph defaultCfg).emergencia = true ∧
    (simulate_irrigation_logic umidade ph p k defaultCfg).1 = true ∧
    wokwi_emergencia umidade ph defaultCfg = true := by
  refine ⟨?_, ?_, ?_, ?_⟩ <;>
    simp [simular_logica_irrigacao, simulate_irrigation_logic,
      wokwi_emergencia, decisaoLigaBomba, defaultCfg, h]

/-- Claim C2 witness: Scenario 1 of the spec, humidity 10, pH 6.0, both
nutrients present. -/
theorem claim_C2_witness :
    decisaoLigaBomba (simular_logica_irrigacao 10 6 defaultCfg) = true ∧
    (simular_logica_irrigacao 10 6 defaultCfg).emergencia = true ∧
    (simulate_irrigation_logic 10 6 true true defaultCfg).1 = true ∧
    wokwi_emergencia 10 6 defaultCfg = true :=
  claim_C2_critical_humidity_forces_emergency_irrigation 10 6 true true (by norm_num)

/-- Claim C3 counterexample: in `simular_logica_irrigacao_app`, the
emergency branch (humidity 10 < 15) is suppressed by forecast rainfall
5.0 mm > 1.0 mm — the function returns `pump_on = false`, contradicting
the claim that rule 1 yields `pump_on = true` for every rainfall value. -/
theorem claim_C3_counterexample :
    (simular_logica_irrigacao_app 10 6 true true defaultCfg 5).1 = false := by
  norm_num [simular_logica_irrigacao_app, defaultCfg]

/-- Claim C3 (amended): in the rainfall-extended decision function, the
rain override cancels every positive base decision, including the
emergency branch of rule 1: under critical humidity the pump is on exactly
when forecast rainfall is at most 1.0 mm. -/
theorem claim_C3_amended_rain_override_cancels_emergency
    (umidade ph chuva : ℚ) (p k : Bool) (h : umidade < 15) :
    (simular_logica_irrigacao_app umidade ph p k defaultCfg chuva).1 =
      decide (chuva ≤ 1) := by
  by_cases hc : (1 : ℚ) < chuva
  · simp [simular_logica_irrigacao_app, defaultCfg, h, hc, not_le.mpr hc]
  · have hle : chuva ≤ 1 := not_lt.mp hc
    by_cases h0 : (0 : ℚ) < chuva <;>
      simp [simular_logica_irrigacao_app, defaultCfg, h, hc, h0, hle]

/-- Claim C3 witness: humidity 10 (critical), no forecast rain — the
emergency irrigation goes through. -/
theorem claim_C3_witness :
    (simular_logica_irrigacao_app 10 6 true true defaultCfg 0).1 =
      decide ((0 : ℚ) ≤ 1) :=
  claim_C3_amended_rain_override_cancels_emergency 10 6 0 true true (by norm_num)

/-- Claim C4 counterexample: at humidity 30 (inside [20, 60]) and pH 4.5 —
the lower endpoint of the claimed closed safe interval —
`data_analysis.simular_logica_irrigacao` declares a pH emergency (its
guard is the strict `PH_CRITICO_MINIMO < ph < PH_CRITICO_MAXIMO`), so the
result is not the "normal conditions" / no-emergency one the claim
requires. -/
theorem claim_C4_counterexample :
    (simular_logica_irrigacao 30 4.5 defaultCfg).emergencia = true ∧
    (simular_logica_irrigacao 30 4.5 defaultCfg).justificativa =
      JustifDA.emergenciaPhForaFaixaCritica := by
  constructor <;> norm_num [simular_logica_irrigacao, defaultCfg]

/-- Claim C4 (amended): for humidity in the closed interval [20, 60] and
pH strictly inside (4.5, 7.5) — endpoints excluded, as forced by the
strict pH guard of the `data_analysis` variant — both engine variants
return pump off with the "normal conditions" reason and no emergency, for
every nutrient flag. -/
theorem claim_C4_amended_normal_conditions
    (umidade ph : ℚ) (p k : Bool)
    (h1 : 20 ≤ umidade) (h2 : umidade ≤ 60)
    (h3 : (4.5 : ℚ) < ph) (h4 : ph < (7.5 : ℚ)) :
    simular_logica_irrigacao umidade ph defaultCfg =
      { decisao := "Manter bomba desligada"
        justificativa := JustifDA.condicoesNormais
        emergencia := false } ∧
    simulate_irrigation_logic umidade ph p k defaultCfg =
      (false, MotivoWokwi.condicoesNormaisBombaDesligada) ∧
    wokwi_emergencia umidade ph defaultCfg = false := by
  have hA : ¬ umidade < 15 := by linarith
  have hB : ¬ umidade < 20 := by linarith
  have hC : ¬ umidade > 60 := by linarith
  have hD : ¬ ph < (4.5 : ℚ) := by linarith
  have hE : ¬ ph > (7.5 : ℚ) := by linarith
  refine ⟨?_, ?_, ?_⟩ <;>
    simp [simular_logica_irrigacao, simulate_irrigation_logic,
      wokwi_emergencia, defaultCfg, hA, hB, hC, hD, hE, h3, h4]

/-- Claim C4 witness: humidity 40, pH 6.0, no nutrients. -/
theorem claim_C4_witness :
    simular_logica_irrigacao 40 6 defaultCfg =
      { decisao := "Manter bomba desligada"
        justificativa := JustifDA.condicoesNormais
        emergencia := false } ∧
    simulate_irrigation_logic 40 6 false false defaultCfg =
      (false, MotivoWokwi.condicoesNormaisBombaDesligada) ∧
    wokwi_emergencia 40 6 defaultCfg = false :=
  claim_C4_amended_normal_conditions 40 6 false false
    (by norm_num) (by norm_num) (by norm_num) (by norm_num)

/-! ## Claim about anomaly detection -/

/-- Claim C5 counterexample: on the series [10, 10, 10, 10, 100] the
population mean is 28 and the population standard deviation is 36, so the
largest |z| is 72/36 = 2.0 ≤ 3.0 — `detect_anomalies` with threshold 3.0
flags nothing, not "exactly the last element". -/
theorem claim_C5_counterexample :
    detect_anomalies [10, 10, 10, 10, 100] 3 ≠
      [false, false, false, false, true] := by
  have hm : popMean [10, 10, 10, 10, 100] = 28 := by
    norm_num [popMean, List.sum_cons, List.sum_nil]
  have hv : popVar [10, 10, 10, 10, 100] = 1296 := by
    norm_num [popVar, hm, List.sum_cons, List.sum_nil]
  norm_num [detect_anomalies, hm, hv]

/-- Claim C5 (amended): on the series [10, 10, 10, 10, 100] the z-scores
are -0.5 (four times) and 2.0, so with threshold 3.0 `detect_anomalies`
flags no element; exactly the last element is flagged for a threshold
below 2.0, e.g. 1.5. -/
theorem claim_C5_amended_no_element_flagged_at_3 :
    detect_anomalies [10, 10, 10, 10, 100] 3 =
      [false, false, false, false, false] ∧
    detect_anomalies [10, 10, 10, 10, 100] 1.5 =
      [false, false, false, false, true] := by
  have hm : popMean [10, 10, 10, 10, 100] = 28 := by
    norm_num [popMean, List.sum_cons, List.sum_nil]
  have hv : popVar [10, 10, 10, 10, 100] = 1296 := by
    norm_num [popVar, hm, List.sum_cons, List.sum_nil]
  constructor <;> norm_num [detect_anomalies, hm, hv]

/-! ## Claims about the ML wrappers -/

/-- Claim C6 counterexample: the empty humidity series has fewer than 20
points, yet `train_arima_model` rejects it through its first guard, whose
message ("A entrada deve ser uma pandas Series não vazia.") names no
history length — not through the "Série temporal muito curta (… pontos)"
error the claim describes. -/
theorem claim_C6_counterexample :
    train_arima_model [] (5, 1, 0) = Except.error ArimaError.entradaVazia ∧
    (Except.error ArimaError.entradaVazia : Except ArimaError ArimaFit) ≠
      Except.error (ArimaError.serieMuitoCurta 0) := by
  constructor
  · rfl
  · simp

/-- Claim C6 (amended): for every non-empty humidity series with fewer
than 20 points, `train_arima_model` fails fast with the error that names
the insufficient history length, and no model is fitted; the empty series
also fails fast, but with the non-emptiness message instead. -/
theorem claim_C6_amended_short_series_fails_fast
    (series : List ℚ) (order : ℕ × ℕ × ℕ)
    (hne : series ≠ []) (hlt : series.length < 20) :
    train_arima_model series order =
      Except.error (ArimaError.serieMuitoCurta series.length) := by
  cases series with
  | nil => cases hne rfl
  | cons a t =>
    unfold train_arima_model
    rw [if_neg (by simp), if_pos hlt]

/-- Claim C6 witness: a three-point series. -/
theorem claim_C6_witness :
    train_arima_model [30, 31, 32] (5, 1, 0) =
      Except.error (ArimaError.serieMuitoCurta 3) :=
  claim_C6_amended_short_series_fails_fast [30, 31, 32] (5, 1, 0)
    (by simp) (by norm_num)

/-- A nonempty list all of whose elements equal `b` deduplicates to `[b]`. -/
theorem dedup_of_all_eq {α : Type} [DecidableEq α] (l : List α) (b : α)
    (hne : l ≠ []) (hall : ∀ x ∈ l, x = b) : l.dedup = [b] := by
  induction l with
  | nil => cases hne rfl
  | cons a t ih =>
    have ha : a = b := hall a (List.mem_cons_self a t)
    subst ha
    cases t with
    | nil => simp
    | cons c u =>
      have ht : (c :: u).dedup = [a] := by
        refine ih (by simp) ?_
        intro x hx
        have hc : c = a := hall c (by simp)
        have := hall x (List.mem_cons_of_mem _ hx)
        simp [this, hc]
      have hmem : a ∈ c :: u := by
        have hc : c = a := hall c (by simp)
        simp [hc]
      rw [List.dedup_cons_of_mem hmem]
      exact ht

/-- Claim C7: for every non-empty risk-training set in which a single
class is present (all rows emergency, or none), `train_risk_model`
returns — rather than raises — the typed "not enough data" result:
`modelo = None`, `acuracia = 0`, and the explanatory message. -/
theorem claim_C7_single_class_returns_not_enough_data
    (rows : List RiskRow) (b : Bool) (hne : rows ≠ [])
    (hall : ∀ r ∈ rows, r.emergencia = b) :
    train_risk_model rows =
      Except.ok (RiskResult.semDadosSuficientes none 0 msgSemDados) := by
  have hmap : ∀ x ∈ rows.map (fun r => r.emergencia), x = b := by
    intro x hx
    rcases List.mem_map.mp hx with ⟨r, hr, hxe⟩
    rw [← hxe]
    exact hall r hr
  have hne2 : rows.map (fun r => r.emergencia) ≠ [] := by
    cases rows with
    | nil => cases hne rfl
    | cons a t => simp
  have hd := dedup_of_all_eq _ b hne2 hmap
  cases rows with
  | nil => cases hne rfl
  | cons a t =>
    simp only [train_risk_model, List.isEmpty_cons, Bool.false_eq_true,
      if_false, hd]
    norm_num

/-- Claim C7 witness: a single all-non-emergency row. -/
theorem claim_C7_witness :
    train_risk_model
      [{ timestamp := 0, umidade := 30, ph_estimado := 6,
         fosforo_presente := true, potassio_presente := true,
         temperatura := 25, emergencia := false }] =
      Except.ok (RiskResult.semDadosSuficientes none 0 msgSemDados) :=
  claim_C7_single_class_returns_not_enough_data _ false (by simp)
    (by intro r hr; simp at hr; simp [hr])

/-! ## Claims about the reading store -/

/-- In a well-formed store all present ids are strictly below the
autoincrement counter, so a lookup for the fresh id finds nothing. -/
theorem find_fresh_id_eq_none (l : List Leitura) (n : ℕ)
    (h : ∀ r ∈ l, r.id < n) :
    l.find? (fun r => r.id == n) = none := by
  induction l with
  | nil => rfl
  | cons a t ih =>
    have ha : ¬ ((fun r : Leitura => r.id == n) a = true) := by
      simp
      exact Nat.ne_of_lt (h a (List.mem_cons_self a t))
    rw [List.find?_cons_of_neg t ha]
    exact ih (fun r hr => h r (List.mem_cons_of_mem _ hr))

/-- A `find?` that fails on the first part of an append continues in the
second part. -/
theorem find_append_of_none {l1 l2 : List Leitura} {p : Leitura → Bool}
    (h : l1.find? p = none) : (l1 ++ l2).find? p = l2.find? p := by
  induction l1 with
  | nil => rfl
  | cons a t ih =>
    by_cases hp : p a = true
    · rw [List.find?_cons_of_pos _ hp] at h
      cases h
    · rw [List.find?_cons_of_neg _ hp] at h
      rw [List.cons_append, List.find?_cons_of_neg _ hp]
      exact ih h

/-- Claim C8: round-trip through the store.  If `add_leitura` commits
successfully on a well-formed store and returns id `newId`, then reading
row `newId` back yields exactly the supplied field values, with the
store-assigned id and the defaulted timestamp (`datetime.utcnow` when the
caller supplied none). -/
theorem claim_C8_add_then_get_roundtrip
    (s : Store) (now : ℕ) (inp : LeituraInput) (s2 : Store) (newId : ℕ)
    (hwf : Store.wf s)
    (h : add_leitura s now inp = Except.ok (s2, newId)) :
    get_leitura s2 newId = some
      { id := newId
        timestamp := inp.timestamp.getD now
        umidade := inp.umidade
        ph_estimado := inp.ph_estimado
        fosforo_presente := inp.fosforo_presente
        potassio_presente := inp.potassio_presente
        temperatura := inp.temperatura
        bomba_ligada := inp.bomba_ligada
        decisao_logica_esp32 := inp.decisao_logica_esp32
        emergencia := inp.emergencia } := by
  unfold add_leitura at h
  by_cases hdup :
      (s.rows.any (fun q => q.timestamp == inp.timestamp.getD now)) = true
  · simp only [hdup, if_true] at h
    cases h
  · simp only [hdup, Bool.false_eq_true, if_false, Except.ok.injEq,
      Prod.mk.injEq] at h
    obtain ⟨hs2, hid⟩ := h
    subst hid
    unfold get_leitura
    rw [← hs2]
    have hnone :
        s.rows.find? (fun r => r.id == s.nextId) = none :=
      find_fresh_id_eq_none s.rows s.nextId hwf
    rw [find_append_of_none hnone]
    rw [List.find?_cons_of_pos _ (by simp)]

/-- Claim C8 witness: adding a concrete reading to the empty store and
reading id 0 back. -/
theorem claim_C8_witness :
    get_leitura
      { rows := [{ id := 0, timestamp := 100, umidade := 30, ph_estimado := 6,
                   fosforo_presente := true, potassio_presente := false,
                   temperatura := some 25, bomba_ligada := false,
                   decisao_logica_esp32 := some "Manual", emergencia := false }]
        nextId := 1 } 0 = some
      { id := 0, timestamp := 100, umidade := 30, ph_estimado := 6,
        fosforo_presente := true, potassio_presente := false,
        temperatura := some 25, bomba_ligada := false,
        decisao_logica_esp32 := some "Manual", emergencia := false } :=
  claim_C8_add_then_get_roundtrip { rows := [], nextId := 0 } 7
    { timestamp := some 100, umidade := 30, ph_estimado := 6,
      fosforo_presente := true, potassio_presente := false,
      temperatura := some 25, bomba_ligada := false,
      decisao_logica_esp32 := some "Manual", emergencia := false }
    _ 0 (fun r hr => absurd hr (List.not_mem_nil r)) rfl

/-- Claim C9: the services-layer what-if simulation turns the pump on
exactly when humidity is below UMIDADE_MINIMA_PARA_IRRIGAR, and its whole
result — decision and reason template — is unchanged under any change of
pH, temperature, phosphorus or potassium: no critical-humidity or
critical-pH emergency check takes part in the decision. -/
theorem claim_C9_what_if_depends_only_on_humidity
    (umidade ph ph2 t t2 : ℚ) (f f2 k k2 : Bool) (cfg : IrrigCfg) :
    (run_what_if_simulation umidade ph t f k cfg).1 =
      decide (umidade < cfg.UMIDADE_MINIMA_PARA_IRRIGAR) ∧
    run_what_if_simulation umidade ph t f k cfg =
      run_what_if_simulation umidade ph2 t2 f2 k2 cfg := by
  constructor
  · by_cases h1 : umidade < cfg.UMIDADE_MINIMA_PARA_IRRIGAR <;>
      by_cases h2 : umidade > cfg.UMIDADE_ALTA_PARAR_IRRIGACAO <;>
        simp [run_what_if_simulation, h1, h2]
  · rfl

/-- Claim C10 counterexample: on a store holding rows with ids 1 and 2
(timestamps 100 and 200), updating row 1 with `{"timestamp": 200}` hits
the UNIQUE constraint on timestamp at commit: `update_leitura` raises
(modelled as `Except.error`) instead of returning `True`. -/
theorem claim_C10_counterexample :
    update_leitura { rows := [rowA, rowB], nextId := 3 } 1
        [Campo.timestamp 200] =
      Except.error
        "IntegrityError: UNIQUE constraint failed: leituras_sensores_phd_v2" := by
  rfl

/-- Claim C10 (amended): `update_leitura` returns `False` and leaves the
store unchanged when no reading with the given id exists; when the id
exists and the updates do not collide with another row's unique
timestamp or id, it returns `True` and replaces exactly the matched row
by the fold of the known-field updates (rows with other ids are mapped to
themselves); unknown field names are silently ignored — applying them
changes nothing.  (A colliding timestamp/id update instead aborts with an
integrity error, as the counterexample shows.) -/
theorem claim_C10_amended_update_semantics
    (s : Store) (lid : ℕ) (campos : List Campo) :
    (get_leitura s lid = none →
      update_leitura s lid campos = Except.ok (s, false)) ∧
    (∀ r, get_leitura s lid = some r →
      (s.rows.any (fun q => q.id != lid &&
        (q.timestamp == (campos.foldl applyCampo r).timestamp ||
          q.id == (campos.foldl applyCampo r).id))) = false →
      update_leitura s lid campos =
        Except.ok
          ({ s with rows := List.map (fun q => if q.id == lid then campos.foldl applyCampo r else q) s.rows },
            true)) ∧
    (∀ q nome, applyCampo q (Campo.desconhecido nome) = q) := by
  refine ⟨?_, ?_, ?_⟩
  · intro hnone
    unfold update_leitura
    rw [hnone]
  · intro r hr hcol
    unfold update_leitura
    rw [hr]
    simp only [hcol, Bool.false_eq_true, if_false]
  · intro q nome
    rfl

/-- Claim C10 witness: on a one-row store, an update of a known field
together with an unknown field name succeeds, changes only that field,
and a lookup for an absent id returns `False` without touching the
store. -/
theorem claim_C10_witness :
    update_leitura { rows := [rowA], nextId := 3 } 1
        [Campo.umidade 50, Campo.desconhecido "vazao"] =
      Except.ok ({ rows := [{ rowA with umidade := 50 }], nextId := 3 }, true) ∧
    update_leitura { rows := [rowA], nextId := 3 } 9 [Campo.umidade 50] =
      Except.ok ({ rows := [rowA], nextId := 3 }, false) := by
  constructor
  · have h := (claim_C10_amended_update_semantics
      { rows := [rowA], nextId := 3 } 1
      [Campo.umidade 50, Campo.desconhecido "vazao"]).2.1 rowA (by rfl) (by rfl)
    simpa [rowA] using h
  · exact (claim_C10_amended_update_semantics
      { rows := [rowA], nextId := 3 } 9 [Campo.umidade 50]).1 (by rfl)
